import Mathlib

/-!
Shallow embedding of the order service of the glamora backend
(src/unnamed/part_000, the Prisma/Express order module).

The database is modelled as explicit lists of rows; each service function
becomes a pure Lean function over a `DB` value.  Nondeterministic inputs of
the original code (Date.now, Math.random, the id and timestamp generated by
the database on insert) are passed in explicitly as a `FreshData` record,
and the external payment gateway (`initiatePayment`, from the Payment
module, outside the embedded file) is passed in as a function argument.
Prisma `where` inputs are embedded as a small condition language
(`AtomicCond`) with the documented Prisma semantics: a condition whose
value is `undefined` is ignored, `AND` of an empty list is true.
`findMany` with `orderBy`/`skip`/`take` is modelled as a deterministic
(insertion) sort followed by `drop`/`take`.
-/

/-- Values of query parameters and of order fields, as the dynamic values
the JavaScript code manipulates: strings, numbers, booleans and
`undefined`. -/
inductive Value where
  | str (s : String)
  | num (n : Int)
  | boolV (b : Bool)
  | undef
deriving DecidableEq, Repr

/-- JavaScript truthiness, used by `Boolean(filterData[field])` in the
listing functions: empty string, zero, `false` and `undefined` are falsy. -/
def truthy : Value → Bool
  | Value.str s => !(s == "")
  | Value.num n => !(n == 0)
  | Value.boolV b => b
  | Value.undef => false

/-- A customer row (the fields the order module reads). -/
structure Customer where
  customerId : String
  email : String
deriving DecidableEq, Repr

/-- A shop row (the fields the order module reads). -/
structure Shop where
  shopId : String
  isBlackListed : Bool
  vendorId : String
deriving DecidableEq, Repr

/-- A vendor row (the fields the order module reads). -/
structure Vendor where
  vendorId : String
  email : String
deriving DecidableEq, Repr

/-- An order item; the same shape serves for the line items of an incoming
`IOrderRequest` and for the persisted `OrderItem` rows, since
`createOrderIntoDB` copies the fields one to one. -/
structure OrderItem where
  shopId : String
  productId : String
  size : String
  quantity : Int
  price : Int
  discount : Int
deriving DecidableEq, Repr

/-- An order row.  `status` is kept as a `String` because `updateOrder`
looks the current status up in a `Record<string, string>` table and has an
explicit branch for a status that is not a key of that table.  `createdAt`
is the insertion timestamp used by the default `orderBy`. -/
structure Order where
  id : String
  couponId : Option String
  subTotal : Int
  total : Int
  discounts : Int
  customerId : String
  transactionId : String
  paymentStatus : String
  status : String
  createdAt : Int
  items : List OrderItem
deriving DecidableEq, Repr

/-- The database state: the tables the order module touches. -/
structure DB where
  customers : List Customer
  shops : List Shop
  vendors : List Vendor
  orders : List Order
deriving DecidableEq, Repr

/-- A thrown error.  `ApiError(status, message)` is modelled with
`code = some status`; a plain `new Error(message)` (as thrown by
`updateOrder`) carries no HTTP-status-like code, hence `code = none`. -/
structure ApiError where
  code : Option Nat
  message : String
deriving DecidableEq, Repr

/-- The body of an order creation request (`IOrderRequest`). -/
structure IOrderRequest where
  couponId : Option String
  subTotal : Int
  total : Int
  discounts : Int
  items : List OrderItem
deriving DecidableEq, Repr

/-- Inputs the original code obtains from the environment during creation:
the row id and `createdAt` the database generates on insert, and the
`Date.now()` / `Math.floor(Math.random() * 100000)` values read by
`generateTransactionId`. -/
structure FreshData where
  newOrderId : String
  timestamp : Nat
  randomNum : Nat
  createdAt : Int
deriving DecidableEq, Repr

/-- The argument object passed to `initiatePayment` (the field named
`orderData` receives `orderData.subTotal` in the source). -/
structure PaymentArgs where
  orderData : Int
  txn : String
  customerData : Customer
  orderId : String
deriving DecidableEq, Repr

/-- The inner `data` of the payment gateway response. -/
structure PaymentResultData where
  payment_url : String
deriving DecidableEq, Repr

/-- The payment gateway response. -/
structure PaymentResult where
  data : PaymentResultData
deriving DecidableEq, Repr

/-- The value returned by `createOrderIntoDB` on success:
`{ ...orderData, payLink: paymentInfo.data.payment_url }`. -/
structure CreateOrderResult where
  order : Order
  payLink : String
deriving DecidableEq, Repr

/-- Transaction id generation: `TXN-<timestamp>-<random suffix>`. -/
def generateTransactionId (timestamp randomNum : Nat) : String :=
  "TXN-" ++ toString timestamp ++ "-" ++ toString randomNum

/-- The ids of all blacklisted shops, as fetched at the start of order
creation (`prisma.shop.findMany({where: {isBlackListed: true}, select: {shopId}})`). -/
def blacklistedShopIdsOf (db : DB) : List String :=
  (db.shops.filter (fun s => s.isBlackListed)).map (fun s => s.shopId)

/-- Embedding of `createOrderIntoDB`.  Returns the thrown error or the
result value, together with the database state after the call. -/
def createOrderIntoDB (db : DB) (orderInfo : IOrderRequest) (userEmail : String)
    (fresh : FreshData) (initiatePayment : PaymentArgs → PaymentResult) :
    Except ApiError CreateOrderResult × DB :=
  match db.customers.find? (fun c => c.email == userEmail) with
  | none => (Except.error { code := some 404, message := "Customer not found for payment" }, db)
  | some customerData =>
    let blacklistedShopIds := blacklistedShopIdsOf db
    match orderInfo.items.find? (fun item => blacklistedShopIds.contains item.shopId) with
    | some blacklistedInOrder =>
      (Except.error
        { code := some 400
          message := "Order cannot be placed as shop " ++ blacklistedInOrder.shopId
            ++ " is blacklisted." }, db)
    | none =>
      let orderData : Order :=
        { id := fresh.newOrderId
          couponId := orderInfo.couponId
          subTotal := orderInfo.subTotal
          total := orderInfo.total
          discounts := orderInfo.discounts
          customerId := customerData.customerId
          transactionId := generateTransactionId fresh.timestamp fresh.randomNum
          paymentStatus := "PENDING"
          -- status is not set by the insert payload; the schema default for
          -- the ORDER_STATUS enum (PENDING, the first state) applies.
          status := "PENDING"
          createdAt := fresh.createdAt
          items := orderInfo.items.map (fun item =>
            { shopId := item.shopId
              productId := item.productId
              size := item.size
              quantity := item.quantity
              price := item.price
              discount := item.discount }) }
      let db2 : DB := { db with orders := db.orders ++ [orderData] }
      let paymentInfo := initiatePayment
        { orderData := orderData.subTotal
          txn := orderData.transactionId
          customerData := customerData
          orderId := orderData.id }
      (Except.ok { order := orderData, payLink := paymentInfo.data.payment_url }, db2)

/-- The `statusSequence` lookup table of `updateOrder`:
`{PENDING: "ONGOING", ONGOING: "DELIVERED", DELIVERED: "DELIVERED"}`;
indexing with any other key yields `undefined`, here `none`. -/
def statusSequence (s : String) : Option String :=
  if s == "PENDING" then some "ONGOING"
  else if s == "ONGOING" then some "DELIVERED"
  else if s == "DELIVERED" then some "DELIVERED"
  else none

/-- Embedding of `updateOrder`: finds the order, looks its status up in the
transition table, and writes the next status back.  Both failure branches
throw a plain `Error` (no status code). -/
def updateOrder (db : DB) (id : String) : Except ApiError Order × DB :=
  match db.orders.find? (fun o => o.id == id) with
  | none =>
    (Except.error { code := none, message := "Order with ID " ++ id ++ " not found" }, db)
  | some order =>
    match statusSequence order.status with
    | none =>
      (Except.error { code := none, message := "Invalid current status: " ++ order.status }, db)
    | some nextStatus =>
      (Except.ok { order with status := nextStatus },
       { db with orders := db.orders.map (fun o =>
           if o.id == id then { o with status := nextStatus } else o) })

/-- Pagination inputs of the listing functions.  `page`, `limit` and `skip`
are the values produced by `paginationHelper.calculatePagination` (a
utility outside the embedded file; the spec describes the pagination as
plain offset/limit, so the three computed numbers are taken as inputs);
`sort` is the optional `"field-direction"` specification string. -/
structure IPaginationOptions where
  page : Nat
  limit : Nat
  skip : Nat
  sort : Option String
deriving DecidableEq, Repr

/-- The `meta` envelope of every listing response. -/
structure PageMeta where
  page : Nat
  limit : Nat
  total : Nat
  totalPage : Nat
deriving DecidableEq, Repr

/-- A `{meta, data}` listing response. -/
structure ListResult where
  meta : PageMeta
  data : List Order
deriving DecidableEq, Repr

/-- Model of `Math.ceil(total / limit)` on natural inputs with a positive
divisor. -/
def ceilDiv (a b : Nat) : Nat := (a + b - 1) / b

/-- The meta envelope every listing builds:
`{page, limit, total, totalPage: Math.ceil(total / limit)}`. -/
def mkMeta (page limit total : Nat) : PageMeta :=
  { page := page, limit := limit, total := total, totalPage := ceilDiv total limit }

/-- Dynamic field access on an order row, as used both by the generic
equality filters built from query parameters and by the dynamic `orderBy`
key.  Scalar columns of the Order model; any other key is `undefined`. -/
def Order.getField (o : Order) : String → Value
  | "id" => Value.str o.id
  | "couponId" => match o.couponId with
    | some c => Value.str c
    | none => Value.undef
  | "subTotal" => Value.num o.subTotal
  | "total" => Value.num o.total
  | "discounts" => Value.num o.discounts
  | "customerId" => Value.str o.customerId
  | "transactionId" => Value.str o.transactionId
  | "paymentStatus" => Value.str o.paymentStatus
  | "status" => Value.str o.status
  | "createdAt" => Value.num o.createdAt
  | _ => Value.undef

/-- A total boolean order on dynamic values, standing in for the database's
comparison in `ORDER BY`. -/
def valueLe (a b : Value) : Bool :=
  match a, b with
  | Value.undef, _ => true
  | _, Value.undef => false
  | Value.boolV x, Value.boolV y => !x || y
  | Value.boolV _, _ => true
  | _, Value.boolV _ => false
  | Value.num x, Value.num y => decide (x ≤ y)
  | Value.num _, _ => true
  | _, Value.num _ => false
  | Value.str x, Value.str y => !(decide (y < x))

/-- Row comparison for `orderBy { [key]: dir }`: ascending by the field's
value unless the direction is `"desc"`. -/
def leFor (key dir : String) (a b : Order) : Bool :=
  if dir == "desc" then valueLe (Order.getField b key) (Order.getField a key)
  else valueLe (Order.getField a key) (Order.getField b key)

/-- Insert into a sorted list (the recursive step of insertion sort). -/
def insertSorted (le : Order → Order → Bool) (x : Order) : List Order → List Order
  | [] => [x]
  | y :: ys => if le x y then x :: y :: ys else y :: insertSorted le x ys

/-- Deterministic model of the database sort applied by `findMany`'s
`orderBy`. -/
def sortWith (le : Order → Order → Bool) : List Order → List Order
  | [] => []
  | x :: xs => insertSorted le x (sortWith le xs)

/-- The field component of a `"field-direction"` sort string:
`sort.split("-")[0]`. -/
def sortFieldOf (s : String) : String := (s.splitOn "-").headD ""

/-- The direction component of a `"field-direction"` sort string:
`sort.split("-")[1]`. -/
def sortDirOf (s : String) : String := ((s.splitOn "-").drop 1).headD ""

/-- The ordering every listing function applies: the parsed
`"field-direction"` pair when a sort string is given, `createdAt`
descending otherwise. -/
def sortOrders (sort : Option String) (os : List Order) : List Order :=
  match sort with
  | some s => sortWith (leFor (sortFieldOf s) (sortDirOf s)) os
  | none => sortWith (leFor "createdAt" "desc") os

/-- Atomic Prisma `where` conditions used by the order listings. -/
inductive AtomicCond where
  | fieldEquals (field : String) (v : Value)
  | customerIdIs (cid : Option String)
  | itemsSomeShopVendorIs (vendorId : String)
deriving DecidableEq, Repr

/-- Semantics of an atomic condition on an order row.  Following Prisma's
documented treatment, a filter whose value is `undefined`
(`{customerId: undefined}`, from `userData?.customerId` when no customer
row matched) is ignored, i.e. holds of every row.  `itemsSomeShopVendorIs`
is `{items: {some: {shop: {vendorId: v}}}}`, resolved through the shop
table. -/
def evalAtomic (shops : List Shop) (o : Order) : AtomicCond → Bool
  | AtomicCond.fieldEquals f v => Order.getField o f == v
  | AtomicCond.customerIdIs none => true
  | AtomicCond.customerIdIs (some cid) => o.customerId == cid
  | AtomicCond.itemsSomeShopVendorIs vid =>
    o.items.any (fun it => shops.any (fun s => s.shopId == it.shopId && s.vendorId == vid))

/-- A `{AND: [...]}` group: the conjunction of its atomic conditions (true
when empty, as Prisma treats `AND: []`). -/
def evalGroup (shops : List Shop) (o : Order) (g : List AtomicCond) : Bool :=
  g.all (evalAtomic shops o)

/-- The top level `{AND: andCondtion}`: conjunction of the pushed groups. -/
def evalWhere (shops : List Shop) (conds : List (List AtomicCond)) (o : Order) : Bool :=
  conds.all (evalGroup shops o)

/-- The rows matched by a `findMany`/`count` call carrying the given
`whereConditons`. -/
def matchedOrders (db : DB) (conds : List (List AtomicCond)) : List Order :=
  db.orders.filter (evalWhere db.shops conds)

/-- The data page a `findMany` call returns for the given `whereConditons`:
the matched rows, ordered by `orderBy` and cut by `skip`/`take`. -/
def pageOf (db : DB) (paginationData : IPaginationOptions)
    (conds : List (List AtomicCond)) : List Order :=
  ((sortOrders paginationData.sort (matchedOrders db conds)).drop
    paginationData.skip).take paginationData.limit

/-- The destructuring `const { searchTerm, ...filterData } = params`:
every parameter except `searchTerm` survives into `filterData`. -/
def stripSearchTerm (params : List (String × Value)) : List (String × Value) :=
  params.filter (fun kv => !(kv.1 == "searchTerm"))

/-- The generic filter groups built from `filterData`: when nonempty, one
`AND` group holding an exact equality conjunct for each truthy-valued
parameter (falsy values are excluded by the `.filter(Boolean(...))`). -/
def buildFilterAnd (filterData : List (String × Value)) : List (List AtomicCond) :=
  if filterData.length > 0 then
    [(filterData.filter (fun kv => truthy kv.2)).map (fun kv =>
      AtomicCond.fieldEquals kv.1 kv.2)]
  else []

/-- The complete `whereConditons` of `getSingleCustomerAllOrder`: the
generic parameter filters plus the ownership group
`{AND: [{customerId: userData?.customerId}]}`. -/
def customerWhereConds (db : DB) (userEmail : String)
    (params : List (String × Value)) : List (List AtomicCond) :=
  let userData := db.customers.find? (fun c => c.email == userEmail)
  buildFilterAnd (stripSearchTerm params) ++
    [[AtomicCond.customerIdIs (userData.map (fun c => c.customerId))]]

/-- Embedding of `getSingleCustomerAllOrder`.  Note that the `total` of the
meta envelope comes from `prisma.order.count()` with no `where` clause. -/
def getSingleCustomerAllOrder (db : DB) (userEmail : String)
    (paginationData : IPaginationOptions) (params : List (String × Value)) : ListResult :=
  let result := pageOf db paginationData (customerWhereConds db userEmail params)
  let total := db.orders.length
  { meta := mkMeta paginationData.page paginationData.limit total, data := result }

/-- The status condition of `getPendingOrder`:
`{status: {not: "DELIVERED"}}`. -/
def isPending (o : Order) : Bool := !(o.status == "DELIVERED")

/-- Embedding of `getPendingOrder`: both the data query and the count query
carry the same `{status: {not: "DELIVERED"}}` condition. -/
def getPendingOrder (db : DB) (paginationData : IPaginationOptions) : ListResult :=
  let result := ((sortOrders paginationData.sort
      (db.orders.filter isPending)).drop paginationData.skip).take paginationData.limit
  let total := (db.orders.filter isPending).length
  { meta := mkMeta paginationData.page paginationData.limit total, data := result }

/-- The complete `whereConditons` of `getSpecificShopOrder`: the generic
parameter filters plus the ownership group
`{AND: [{items: {some: {shop: {vendorId: vendor.vendorId}}}}]}`. -/
def shopWhereConds (vendor : Vendor) (params : List (String × Value)) :
    List (List AtomicCond) :=
  buildFilterAnd (stripSearchTerm params) ++
    [[AtomicCond.itemsSomeShopVendorIs vendor.vendorId]]

/-- Embedding of `getSpecificShopOrder`.  `findUniqueOrThrow` on the vendor
throws Prisma's not-found error (no HTTP-status-like code) when no vendor
row matches the caller's email; both the data query and the count query use
the same `whereConditons`. -/
def getSpecificShopOrder (db : DB) (userEmail : String)
    (paginationData : IPaginationOptions) (params : List (String × Value)) :
    Except ApiError ListResult :=
  match db.vendors.find? (fun v => v.email == userEmail) with
  | none => Except.error { code := none, message := "No Vendor found" }
  | some vendor =>
    let whereConditons := shopWhereConds vendor params
    let orders := pageOf db paginationData whereConditons
    let total := (matchedOrders db whereConditons).length
    Except.ok
      { meta := mkMeta paginationData.page paginationData.limit total, data := orders }

/-- Rank of a status in the PENDING → ONGOING → DELIVERED progression, used
to state that `updateOrder` never moves a status backward. -/
def statusRank (s : String) : Nat :=
  if s == "PENDING" then 0
  else if s == "ONGOING" then 1
  else if s == "DELIVERED" then 2
  else 0

/-- Membership in an insertion step is membership in the inserted element
or the original list. -/
theorem mem_insertSorted (le : Order → Order → Bool) (x y : Order) (l : List Order) :
    y ∈ insertSorted le x l ↔ y = x ∨ y ∈ l := by
  induction l with
  | nil => simp [insertSorted]
  | cons z zs ih =>
    simp only [insertSorted]
    split
    · simp [List.mem_cons]
    · simp only [List.mem_cons, ih]
      tauto

/-- The modelled database sort does not change the set of rows. -/
theorem mem_sortWith (le : Order → Order → Bool) (y : Order) (l : List Order) :
    y ∈ sortWith le l ↔ y ∈ l := by
  induction l with
  | nil => simp [sortWith]
  | cons z zs ih => simp [sortWith, mem_insertSorted, ih]

/-- The transition table only moves a status forward in the
PENDING → ONGOING → DELIVERED progression. -/
theorem statusSequence_rank_mono (s next : String) (h : statusSequence s = some next) :
    statusRank s ≤ statusRank next := by
  have hs : s = "PENDING" ∨ s = "ONGOING" ∨ s = "DELIVERED" := by
    by_contra hcon
    push_neg at hcon
    simp [statusSequence, hcon.1, hcon.2.1, hcon.2.2] at h
  rcases hs with hs | hs | hs
  all_goals subst hs
  · rw [show statusSequence "PENDING" = some "ONGOING" from rfl] at h
    injection h with h2
    subst h2
    decide
  · rw [show statusSequence "ONGOING" = some "DELIVERED" from rfl] at h
    injection h with h2
    subst h2
    decide
  · rw [show statusSequence "DELIVERED" = some "DELIVERED" from rfl] at h
    injection h with h2
    subst h2
    decide

/-- C1: if the requesting customer exists and some line item of the order
references a blacklisted shop, `createOrderIntoDB` throws an `ApiError`
with code 400 whose message names the offending shop id, and the database
is unchanged. -/
theorem createOrderIntoDB_rejects_blacklisted (db : DB) (orderInfo : IOrderRequest)
    (userEmail : String) (fresh : FreshData) (pay : PaymentArgs → PaymentResult)
    (cust : Customer)
    (hc : db.customers.find? (fun c => c.email == userEmail) = some cust)
    (hb : ∃ item ∈ orderInfo.items, ∃ s ∈ db.shops,
      s.isBlackListed = true ∧ s.shopId = item.shopId) :
    ∃ item ∈ orderInfo.items,
      (∃ s ∈ db.shops, s.isBlackListed = true ∧ s.shopId = item.shopId) ∧
      createOrderIntoDB db orderInfo userEmail fresh pay =
        (Except.error ⟨some 400,
          "Order cannot be placed as shop " ++ item.shopId ++ " is blacklisted."⟩, db) := by
  obtain ⟨it0, hit0, s0, hs0, hbl0, hid0⟩ := hb
  have hp0 : (blacklistedShopIdsOf db).contains it0.shopId = true := by
    have hmem : it0.shopId ∈ blacklistedShopIdsOf db :=
      List.mem_map.mpr ⟨s0, List.mem_filter.mpr ⟨hs0, hbl0⟩, hid0⟩
    exact List.elem_eq_true_of_mem hmem
  cases hfind : orderInfo.items.find?
      (fun item => (blacklistedShopIdsOf db).contains item.shopId) with
  | none =>
    exact absurd hp0 (by simpa using List.find?_eq_none.mp hfind it0 hit0)
  | some j =>
    have hpj0 := List.find?_some hfind
    have hpj : (blacklistedShopIdsOf db).contains j.shopId = true := hpj0
    have hjmem : j ∈ orderInfo.items := List.mem_of_find?_eq_some hfind
    have hjid : j.shopId ∈ blacklistedShopIdsOf db := List.elem_iff.mp hpj
    obtain ⟨s1, hs1, hsid1⟩ := List.mem_map.mp hjid
    have hs1' := List.mem_filter.mp hs1
    refine ⟨j, hjmem, ⟨s1, hs1'.1, hs1'.2, hsid1⟩, ?_⟩
    simp only [createOrderIntoDB, hc, hfind]

/-- C2: for an existing order, `updateOrder` advances the status by exactly
one step of the fixed sequence (PENDING to ONGOING, ONGOING to DELIVERED,
DELIVERED stays DELIVERED), and whenever the transition table applies the
status rank never decreases. -/
theorem updateOrder_advances (db : DB) (id : String) (order : Order)
    (h : db.orders.find? (fun o => o.id == id) = some order) :
    (order.status = "PENDING" →
      (updateOrder db id).1 = Except.ok { order with status := "ONGOING" }) ∧
    (order.status = "ONGOING" →
      (updateOrder db id).1 = Except.ok { order with status := "DELIVERED" }) ∧
    (order.status = "DELIVERED" → (updateOrder db id).1 = Except.ok order) ∧
    (∀ next, statusSequence order.status = some next →
      statusRank order.status ≤ statusRank next) := by
  refine ⟨?_, ?_, ?_, fun next hn => statusSequence_rank_mono order.status next hn⟩
  · intro hs
    simp [updateOrder, h, statusSequence, hs]
  · intro hs
    simp [updateOrder, h, statusSequence, hs]
  · intro hs
    have : ({ order with status := "DELIVERED" } : Order) = order := by
      cases order
      simp_all
    simp [updateOrder, h, statusSequence, hs, this]

/-- Witness for C2 at a concrete database holding one PENDING order. -/
def sampleOrderPending : Order :=
  { id := "o1"
    couponId := none
    subTotal := 100
    total := 100
    discounts := 0
    customerId := "c1"
    transactionId := "t1"
    paymentStatus := "PENDING"
    status := "PENDING"
    createdAt := 1
    items := [] }

/-- Database with a single PENDING order and no other rows. -/
def dbPending : DB :=
  { customers := [], shops := [], vendors := [], orders := [sampleOrderPending] }

/-- Witness: C2 applied to the concrete database `dbPending`. -/
theorem updateOrder_advances_witness :
    (updateOrder dbPending "o1").1 =
      Except.ok { sampleOrderPending with status := "ONGOING" } :=
  (updateOrder_advances dbPending "o1" sampleOrderPending (by decide)).1 rfl

/-- C3: `updateOrder` fails exactly when the order id is unknown or the
current status is not a key of the transition table, and every failure is a
generic error without a status code that leaves the database unchanged. -/
theorem updateOrder_failure_characterization (db : DB) (id : String) :
    ((∃ e, (updateOrder db id).1 = Except.error e) ↔
      db.orders.find? (fun o => o.id == id) = none ∨
      ∃ o, db.orders.find? (fun o2 => o2.id == id) = some o ∧
        statusSequence o.status = none) ∧
    (∀ e, (updateOrder db id).1 = Except.error e →
      e.code = none ∧ (updateOrder db id).2 = db) := by
  cases hfind : db.orders.find? (fun o => o.id == id) with
  | none =>
    constructor
    · constructor
      · intro _
        exact Or.inl rfl
      · intro _
        exact ⟨⟨none, "Order with ID " ++ id ++ " not found"⟩, by simp [updateOrder, hfind]⟩
    · intro e he
      simp only [updateOrder, hfind] at he
      cases he
      exact ⟨rfl, by simp [updateOrder, hfind]⟩
  | some order =>
    cases hseq : statusSequence order.status with
    | none =>
      constructor
      · constructor
        · intro _
          exact Or.inr ⟨order, rfl, hseq⟩
        · intro _
          exact ⟨⟨none, "Invalid current status: " ++ order.status⟩,
            by simp [updateOrder, hfind, hseq]⟩
      · intro e he
        simp only [updateOrder, hfind, hseq] at he
        cases he
        exact ⟨rfl, by simp [updateOrder, hfind, hseq]⟩
    | some next =>
      constructor
      · constructor
        · intro ⟨e, he⟩
          simp [updateOrder, hfind, hseq] at he
        · intro hor
          cases hor with
          | inl hnone => exact Option.noConfusion hnone
          | inr hex =>
            obtain ⟨o, ho, hos⟩ := hex
            injection ho with ho2
            subst ho2
            rw [hseq] at hos
            exact Option.noConfusion hos
      · intro e he
        simp [updateOrder, hfind, hseq] at he

/-- Witness: C3 applied at an id absent from `dbPending`; the failure is a
codeless error and the database is unchanged. -/
theorem updateOrder_failure_characterization_witness :
    (⟨none, "Order with ID missing not found"⟩ : ApiError).code = none ∧
      (updateOrder dbPending "missing").2 = dbPending :=
  (updateOrder_failure_characterization dbPending "missing").2
    ⟨none, "Order with ID missing not found"⟩ rfl

/-- C4: when no customer record matches the caller's email,
`createOrderIntoDB` throws an `ApiError` with code 404 and the database is
unchanged. -/
theorem createOrderIntoDB_missing_customer (db : DB) (orderInfo : IOrderRequest)
    (userEmail : String) (fresh : FreshData) (pay : PaymentArgs → PaymentResult)
    (hc : db.customers.find? (fun c => c.email == userEmail) = none) :
    createOrderIntoDB db orderInfo userEmail fresh pay =
      (Except.error ⟨some 404, "Customer not found for payment"⟩, db) := by
  simp [createOrderIntoDB, hc]

/-- An order request with no line items, for concrete witnesses. -/
def sampleRequest : IOrderRequest :=
  { couponId := none, subTotal := 5, total := 5, discounts := 0, items := [] }

/-- Concrete environment inputs for witnesses. -/
def sampleFresh : FreshData :=
  { newOrderId := "ord1", timestamp := 17, randomNum := 42, createdAt := 3 }

/-- A concrete payment gateway returning a fixed redirect link. -/
def samplePay : PaymentArgs → PaymentResult :=
  fun _ => { data := { payment_url := "PAY" } }

/-- Witness: C4 applied to an empty database. -/
theorem createOrderIntoDB_missing_customer_witness :
    createOrderIntoDB ⟨[], [], [], []⟩ sampleRequest "x@y" sampleFresh samplePay =
      (Except.error ⟨some 404, "Customer not found for payment"⟩, ⟨[], [], [], []⟩) :=
  createOrderIntoDB_missing_customer ⟨[], [], [], []⟩ sampleRequest "x@y" sampleFresh
    samplePay rfl

/-- A blacklisted shop, for concrete witnesses. -/
def blShop : Shop := { shopId := "s1", isBlackListed := true, vendorId := "v1" }

/-- A customer row for concrete witnesses. -/
def sampleCustomer : Customer := { customerId := "c1", email := "a@b" }

/-- A line item referencing the blacklisted shop. -/
def blItem : OrderItem :=
  { shopId := "s1", productId := "p1", size := "M", quantity := 1, price := 10, discount := 0 }

/-- A database holding the sample customer and the blacklisted shop. -/
def dbBlacklist : DB :=
  { customers := [sampleCustomer], shops := [blShop], vendors := [], orders := [] }

/-- An order request whose single item points at the blacklisted shop. -/
def blRequest : IOrderRequest :=
  { couponId := none, subTotal := 10, total := 10, discounts := 0, items := [blItem] }

/-- Witness: C1 applied to the concrete blacklisted-shop database. -/
theorem createOrderIntoDB_rejects_blacklisted_witness :
    ∃ item ∈ blRequest.items,
      (∃ s ∈ dbBlacklist.shops, s.isBlackListed = true ∧ s.shopId = item.shopId) ∧
      createOrderIntoDB dbBlacklist blRequest "a@b" sampleFresh samplePay =
        (Except.error ⟨some 400,
          "Order cannot be placed as shop " ++ item.shopId ++ " is blacklisted."⟩,
          dbBlacklist) :=
  createOrderIntoDB_rejects_blacklisted dbBlacklist blRequest "a@b" sampleFresh samplePay
    sampleCustomer rfl ⟨blItem, by decide, blShop, by decide, rfl, rfl⟩

/-- The sort pipeline of every listing keeps exactly the rows of its
input. -/
theorem mem_sortOrders (sort : Option String) (y : Order) (l : List Order) :
    y ∈ sortOrders sort l ↔ y ∈ l := by
  cases sort <;> simp [sortOrders, mem_sortWith]

/-- Pagination options with no sort string, for concrete witnesses. -/
def pdDefault : IPaginationOptions := { page := 1, limit := 10, skip := 0, sort := none }

/-- A database whose only customer does not own its only order. -/
def dbMismatch : DB :=
  { customers := [{ customerId := "c2", email := "a@b" }]
    shops := []
    vendors := []
    orders := [sampleOrderPending] }

/-- C5: the `total` of the customer listing's meta envelope counts every
order in the database rather than the rows matched by the where-condition
of the data query, `totalPage` divides that unfiltered total by the limit,
and there are inputs on which the two counts differ. -/
theorem getSingleCustomerAllOrder_total_counts_all (db : DB) (userEmail : String)
    (pd : IPaginationOptions) (params : List (String × Value)) :
    (getSingleCustomerAllOrder db userEmail pd params).meta.total = db.orders.length ∧
    (getSingleCustomerAllOrder db userEmail pd params).meta.totalPage =
      ceilDiv db.orders.length pd.limit ∧
    ∃ db0 email0 pd0 params0,
      (getSingleCustomerAllOrder db0 email0 pd0 params0).meta.total ≠
        (matchedOrders db0 (customerWhereConds db0 email0 params0)).length := by
  refine ⟨rfl, rfl, dbMismatch, "a@b", pdDefault, [], ?_⟩
  decide

/-- A DELIVERED order, for concrete witnesses. -/
def sampleOrderDelivered : Order :=
  { sampleOrderPending with id := "o2", status := "DELIVERED" }

/-- A database holding one PENDING and one DELIVERED order. -/
def dbMixed : DB :=
  { customers := [], shops := [], vendors := []
    orders := [sampleOrderPending, sampleOrderDelivered] }

/-- C6: `getPendingOrder` counts and pages over the same
status-not-DELIVERED condition: the meta total is the number of
non-DELIVERED orders, the data page is the sorted and paginated
non-DELIVERED rows (so every returned order is not DELIVERED), and the
meta is the `{page, limit, total, totalPage}` envelope over that total. -/
theorem getPendingOrder_spec (db : DB) (pd : IPaginationOptions) :
    (getPendingOrder db pd).meta.total = (db.orders.filter isPending).length ∧
    (getPendingOrder db pd).data =
      ((sortOrders pd.sort (db.orders.filter isPending)).drop pd.skip).take pd.limit ∧
    (∀ o ∈ (getPendingOrder db pd).data, o.status ≠ "DELIVERED") ∧
    (getPendingOrder db pd).meta =
      mkMeta pd.page pd.limit (db.orders.filter isPending).length := by
  refine ⟨rfl, rfl, ?_, rfl⟩
  intro o ho
  have h1 : o ∈ sortOrders pd.sort (db.orders.filter isPending) :=
    List.mem_of_mem_drop (List.mem_of_mem_take ho)
  have h2 : o ∈ db.orders.filter isPending := (mem_sortOrders pd.sort o _).mp h1
  have h3 : isPending o = true := (List.mem_filter.mp h2).2
  intro heq
  simp [isPending, heq] at h3

/-- Witness: C6 at the mixed database; the PENDING order appears in the
pending page and is indeed not DELIVERED. -/
theorem getPendingOrder_spec_witness : sampleOrderPending.status ≠ "DELIVERED" :=
  (getPendingOrder_spec dbMixed pdDefault).2.2.1 sampleOrderPending (by decide)

/-- C7: when the customer exists and no line item is blacklisted,
`createOrderIntoDB` persists a single new order carrying all its items,
with PENDING payment status and a `TXN-<timestamp>-<random>` transaction
id, calls the payment gateway with the order's subtotal and transaction
id, and returns the persisted order together with the gateway's redirect
link. -/
theorem createOrderIntoDB_success (db : DB) (orderInfo : IOrderRequest)
    (userEmail : String) (fresh : FreshData) (pay : PaymentArgs → PaymentResult)
    (cust : Customer)
    (hc : db.customers.find? (fun c => c.email == userEmail) = some cust)
    (hb : ∀ item ∈ orderInfo.items,
      (blacklistedShopIdsOf db).contains item.shopId = false) :
    ∃ newOrder : Order,
      createOrderIntoDB db orderInfo userEmail fresh pay =
        (Except.ok ⟨newOrder,
          (pay ⟨newOrder.subTotal, newOrder.transactionId, cust, newOrder.id⟩).data.payment_url⟩,
          { db with orders := db.orders ++ [newOrder] }) ∧
      newOrder.paymentStatus = "PENDING" ∧
      newOrder.transactionId =
        "TXN-" ++ toString fresh.timestamp ++ "-" ++ toString fresh.randomNum ∧
      newOrder.subTotal = orderInfo.subTotal ∧
      newOrder.total = orderInfo.total ∧
      newOrder.discounts = orderInfo.discounts ∧
      newOrder.couponId = orderInfo.couponId ∧
      newOrder.customerId = cust.customerId ∧
      newOrder.items = orderInfo.items.map (fun item =>
        { shopId := item.shopId, productId := item.productId, size := item.size,
          quantity := item.quantity, price := item.price, discount := item.discount }) := by
  have hfind : orderInfo.items.find?
      (fun item => (blacklistedShopIdsOf db).contains item.shopId) = none :=
    List.find?_eq_none.mpr (fun x hx => by simpa using hb x hx)
  refine ⟨{ id := fresh.newOrderId
            couponId := orderInfo.couponId
            subTotal := orderInfo.subTotal
            total := orderInfo.total
            discounts := orderInfo.discounts
            customerId := cust.customerId
            transactionId := generateTransactionId fresh.timestamp fresh.randomNum
            paymentStatus := "PENDING"
            status := "PENDING"
            createdAt := fresh.createdAt
            items := orderInfo.items.map (fun item =>
              { shopId := item.shopId, productId := item.productId, size := item.size,
                quantity := item.quantity, price := item.price,
                discount := item.discount }) },
    ?_, rfl, rfl, rfl, rfl, rfl, rfl, rfl, rfl⟩
  simp only [createOrderIntoDB, hc, hfind]

/-- A shop that is not blacklisted, for the success witness. -/
def okShop : Shop := { shopId := "s2", isBlackListed := false, vendorId := "v1" }

/-- A line item referencing the non-blacklisted shop. -/
def okItem : OrderItem :=
  { shopId := "s2", productId := "p2", size := "L", quantity := 2, price := 30, discount := 1 }

/-- A database with the sample customer and only the non-blacklisted shop. -/
def dbOk : DB :=
  { customers := [sampleCustomer], shops := [okShop], vendors := [], orders := [] }

/-- An order request whose single item is placed with the allowed shop. -/
def okRequest : IOrderRequest :=
  { couponId := some "coup", subTotal := 60, total := 59, discounts := 1, items := [okItem] }

/-- Witness: C7 applied to the concrete allowed order creation. -/
theorem createOrderIntoDB_success_witness :
    ∃ newOrder : Order,
      createOrderIntoDB dbOk okRequest "a@b" sampleFresh samplePay =
        (Except.ok ⟨newOrder,
          (samplePay ⟨newOrder.subTotal, newOrder.transactionId, sampleCustomer,
            newOrder.id⟩).data.payment_url⟩,
          { dbOk with orders := dbOk.orders ++ [newOrder] }) ∧
      newOrder.paymentStatus = "PENDING" ∧
      newOrder.transactionId =
        "TXN-" ++ toString sampleFresh.timestamp ++ "-" ++ toString sampleFresh.randomNum ∧
      newOrder.subTotal = okRequest.subTotal ∧
      newOrder.total = okRequest.total ∧
      newOrder.discounts = okRequest.discounts ∧
      newOrder.couponId = okRequest.couponId ∧
      newOrder.customerId = sampleCustomer.customerId ∧
      newOrder.items = okRequest.items.map (fun item =>
        { shopId := item.shopId, productId := item.productId, size := item.size,
          quantity := item.quantity, price := item.price, discount := item.discount }) :=
  createOrderIntoDB_success dbOk okRequest "a@b" sampleFresh samplePay sampleCustomer
    rfl (by decide)

/-- Every truthy query parameter other than `searchTerm` is enforced as an
exact field-equality conjunct on any row satisfying the built
where-condition. -/
theorem evalWhere_param_conjunct (shops : List Shop) (o : Order)
    (params : List (String × Value)) (rest : List (List AtomicCond))
    (hw : evalWhere shops (buildFilterAnd (stripSearchTerm params) ++ rest) o = true)
    (kv : String × Value) (hkv : kv ∈ params) (hst : kv.1 ≠ "searchTerm")
    (ht : truthy kv.2 = true) : Order.getField o kv.1 = kv.2 := by
  have hkv' : kv ∈ stripSearchTerm params :=
    List.mem_filter.mpr ⟨hkv, by simp [hst]⟩
  have hne : stripSearchTerm params ≠ [] := List.ne_nil_of_mem hkv'
  have hlen : 0 < (stripSearchTerm params).length := List.length_pos.mpr hne
  have hgroups : buildFilterAnd (stripSearchTerm params) =
      [((stripSearchTerm params).filter (fun kv2 => truthy kv2.2)).map
        (fun kv2 => AtomicCond.fieldEquals kv2.1 kv2.2)] := by
    simp [buildFilterAnd, hlen]
  rw [hgroups] at hw
  have hg : evalGroup shops o
      (((stripSearchTerm params).filter (fun kv2 => truthy kv2.2)).map
        (fun kv2 => AtomicCond.fieldEquals kv2.1 kv2.2)) = true := by
    simp only [evalWhere, List.all_append, List.all_cons, List.all_nil,
      Bool.and_eq_true, Bool.and_true] at hw
    exact hw.1
  have hmemg : AtomicCond.fieldEquals kv.1 kv.2 ∈
      ((stripSearchTerm params).filter (fun kv2 => truthy kv2.2)).map
        (fun kv2 => AtomicCond.fieldEquals kv2.1 kv2.2) :=
    List.mem_map.mpr ⟨kv, List.mem_filter.mpr ⟨hkv', ht⟩, rfl⟩
  have hatom := List.all_eq_true.mp hg _ hmemg
  simpa [evalAtomic] using hatom

/-- Dropping or keeping a trailing query parameter named `searchTerm`
commutes with the destructuring. -/
theorem stripSearchTerm_append (params : List (String × Value)) (k : String) (v : Value) :
    stripSearchTerm (params ++ [(k, v)]) =
      if k = "searchTerm" then stripSearchTerm params
      else stripSearchTerm params ++ [(k, v)] := by
  by_cases hk : k = "searchTerm"
  · subst hk
    simp [stripSearchTerm, List.filter_append]
  · simp [stripSearchTerm, List.filter_append, hk]

/-- A falsy-valued parameter appended to the filter data leaves the built
where-condition semantically unchanged (the `Boolean` filter excludes
it). -/
theorem evalWhere_falsy_append (shops : List Shop) (fd : List (String × Value))
    (k : String) (v : Value) (hv : truthy v = false)
    (rest : List (List AtomicCond)) (o : Order) :
    evalWhere shops (buildFilterAnd (fd ++ [(k, v)]) ++ rest) o =
      evalWhere shops (buildFilterAnd fd ++ rest) o := by
  have hfilter : (fd ++ [(k, v)]).filter (fun kv => truthy kv.2) =
      fd.filter (fun kv => truthy kv.2) := by
    simp [List.filter_append, hv]
  by_cases hfd : fd = []
  · subst hfd
    simp [buildFilterAnd, evalWhere, evalGroup, hv]
  · have hlen : 0 < fd.length := List.length_pos.mpr hfd
    have hlen2 : 0 < (fd ++ [(k, v)]).length := by simp
    simp [buildFilterAnd, hfilter, hlen, hlen2]

/-- A falsy-valued query parameter appended to the raw parameters leaves
the built where-condition semantically unchanged. -/
theorem evalWhere_strip_falsy (shops : List Shop) (params : List (String × Value))
    (k : String) (v : Value) (hv : truthy v = false)
    (rest : List (List AtomicCond)) (o : Order) :
    evalWhere shops (buildFilterAnd (stripSearchTerm (params ++ [(k, v)])) ++ rest) o =
      evalWhere shops (buildFilterAnd (stripSearchTerm params) ++ rest) o := by
  rw [stripSearchTerm_append]
  by_cases hk : k = "searchTerm"
  · rw [if_pos hk]
  · rw [if_neg hk]
    exact evalWhere_falsy_append shops _ k v hv rest o

/-- Where-conditions with the same row semantics match the same rows. -/
theorem matchedOrders_congr (db : DB) (conds1 conds2 : List (List AtomicCond))
    (h : ∀ o, evalWhere db.shops conds1 o = evalWhere db.shops conds2 o) :
    matchedOrders db conds1 = matchedOrders db conds2 := by
  unfold matchedOrders
  exact List.filter_congr (fun o _ => h o)

/-- Where-conditions with the same row semantics produce the same data
page. -/
theorem pageOf_congr (db : DB) (pd : IPaginationOptions)
    (conds1 conds2 : List (List AtomicCond))
    (h : ∀ o, evalWhere db.shops conds1 o = evalWhere db.shops conds2 o) :
    pageOf db pd conds1 = pageOf db pd conds2 := by
  unfold pageOf
  rw [matchedOrders_congr db conds1 conds2 h]

/-- C8: in both the customer and the vendor listing, every truthy query
parameter is enforced as an exact field-equality conjunct on the returned
rows, appending a falsy-valued parameter changes nothing, and the sort
specification is the `"field-direction"` string split at `"-"`, defaulting
to `createdAt` descending. -/
theorem listing_filter_equality_and_sort (db : DB) (userEmail : String)
    (pd : IPaginationOptions) (params : List (String × Value)) :
    (∀ o ∈ (getSingleCustomerAllOrder db userEmail pd params).data,
      ∀ kv ∈ params, kv.1 ≠ "searchTerm" → truthy kv.2 = true →
        Order.getField o kv.1 = kv.2) ∧
    (∀ k v, truthy v = false →
      getSingleCustomerAllOrder db userEmail pd (params ++ [(k, v)]) =
        getSingleCustomerAllOrder db userEmail pd params) ∧
    (∀ r, getSpecificShopOrder db userEmail pd params = Except.ok r →
      ∀ o ∈ r.data, ∀ kv ∈ params, kv.1 ≠ "searchTerm" → truthy kv.2 = true →
        Order.getField o kv.1 = kv.2) ∧
    (∀ k v, truthy v = false →
      getSpecificShopOrder db userEmail pd (params ++ [(k, v)]) =
        getSpecificShopOrder db userEmail pd params) ∧
    (∀ s os, sortOrders (some s) os =
      sortWith (leFor ((s.splitOn "-").headD "") (((s.splitOn "-").drop 1).headD "")) os) ∧
    (∀ os, sortOrders none os = sortWith (leFor "createdAt" "desc") os) := by
  refine ⟨?_, ?_, ?_, ?_, fun s os => rfl, fun os => rfl⟩
  · intro o ho kv hkv hst ht
    have h1 : o ∈ sortOrders pd.sort
        (matchedOrders db (customerWhereConds db userEmail params)) :=
      List.mem_of_mem_drop (List.mem_of_mem_take ho)
    have h2 : o ∈ matchedOrders db (customerWhereConds db userEmail params) :=
      (mem_sortOrders pd.sort o _).mp h1
    have h3 : evalWhere db.shops (customerWhereConds db userEmail params) o = true :=
      (List.mem_filter.mp h2).2
    exact evalWhere_param_conjunct db.shops o params _ h3 kv hkv hst ht
  · intro k v hv
    unfold getSingleCustomerAllOrder
    have hcc : ∀ o, evalWhere db.shops
        (customerWhereConds db userEmail (params ++ [(k, v)])) o =
        evalWhere db.shops (customerWhereConds db userEmail params) o := by
      intro o
      unfold customerWhereConds
      exact evalWhere_strip_falsy db.shops params k v hv _ o
    rw [pageOf_congr db pd _ _ hcc]
  · intro r hr o ho kv hkv hst ht
    cases hvv : db.vendors.find? (fun vd => vd.email == userEmail) with
    | none => simp [getSpecificShopOrder, hvv] at hr
    | some vendor =>
      simp only [getSpecificShopOrder, hvv] at hr
      injection hr with hr2
      subst hr2
      have h1 : o ∈ sortOrders pd.sort
          (matchedOrders db (shopWhereConds vendor params)) :=
        List.mem_of_mem_drop (List.mem_of_mem_take ho)
      have h2 : o ∈ matchedOrders db (shopWhereConds vendor params) :=
        (mem_sortOrders pd.sort o _).mp h1
      have h3 : evalWhere db.shops (shopWhereConds vendor params) o = true :=
        (List.mem_filter.mp h2).2
      exact evalWhere_param_conjunct db.shops o params _ h3 kv hkv hst ht
  · intro k v hv
    cases hvv : db.vendors.find? (fun vd => vd.email == userEmail) with
    | none => simp only [getSpecificShopOrder, hvv]
    | some vendor =>
      simp only [getSpecificShopOrder, hvv]
      have hcc : ∀ o, evalWhere db.shops (shopWhereConds vendor (params ++ [(k, v)])) o =
          evalWhere db.shops (shopWhereConds vendor params) o := by
        intro o
        unfold shopWhereConds
        exact evalWhere_strip_falsy db.shops params k v hv _ o
      rw [pageOf_congr db pd _ _ hcc, matchedOrders_congr db _ _ hcc]

/-- Witness: C8's falsy-exclusion part at a concrete database; appending
an empty-string parameter does not change the customer listing. -/
theorem listing_filter_equality_and_sort_witness :
    getSingleCustomerAllOrder dbMismatch "a@b" pdDefault
        ([("status", Value.str "PENDING")] ++ [("color", Value.str "")]) =
      getSingleCustomerAllOrder dbMismatch "a@b" pdDefault
        [("status", Value.str "PENDING")] :=
  (listing_filter_equality_and_sort dbMismatch "a@b" pdDefault
    [("status", Value.str "PENDING")]).2.1 "color" (Value.str "") rfl

/-- C9: two parameter maps that agree after removing `searchTerm` produce
identical results in both the customer and the vendor listing: the
destructured `searchTerm` never reaches any filter. -/
theorem searchTerm_has_no_effect (db : DB) (userEmail : String) (pd : IPaginationOptions)
    (params1 params2 : List (String × Value))
    (h : stripSearchTerm params1 = stripSearchTerm params2) :
    getSingleCustomerAllOrder db userEmail pd params1 =
      getSingleCustomerAllOrder db userEmail pd params2 ∧
    getSpecificShopOrder db userEmail pd params1 =
      getSpecificShopOrder db userEmail pd params2 := by
  constructor
  · unfold getSingleCustomerAllOrder customerWhereConds
    rw [h]
  · unfold getSpecificShopOrder shopWhereConds
    simp only [h]

/-- Witness: C9 with a `searchTerm` parameter present versus absent. -/
theorem searchTerm_has_no_effect_witness :
    getSingleCustomerAllOrder dbMismatch "a@b" pdDefault
        [("searchTerm", Value.str "boots")] =
      getSingleCustomerAllOrder dbMismatch "a@b" pdDefault [] ∧
    getSpecificShopOrder dbMismatch "a@b" pdDefault
        [("searchTerm", Value.str "boots")] =
      getSpecificShopOrder dbMismatch "a@b" pdDefault [] :=
  searchTerm_has_no_effect dbMismatch "a@b" pdDefault _ _ rfl

/-- C10: when no customer matches the caller's email, the customer listing
does not raise a not-found error: it returns a normal envelope whose data
page is computed with the ownership condition degenerated to an ignored
`{customerId: undefined}` filter, while `createOrderIntoDB` on the same
email raises the 404 error. -/
theorem getSingleCustomerAllOrder_missing_customer (db : DB) (userEmail : String)
    (pd : IPaginationOptions) (params : List (String × Value))
    (orderInfo : IOrderRequest) (fresh : FreshData) (pay : PaymentArgs → PaymentResult)
    (h : db.customers.find? (fun c => c.email == userEmail) = none) :
    (getSingleCustomerAllOrder db userEmail pd params).data =
      pageOf db pd (buildFilterAnd (stripSearchTerm params)) ∧
    (getSingleCustomerAllOrder db userEmail pd params).meta =
      mkMeta pd.page pd.limit db.orders.length ∧
    createOrderIntoDB db orderInfo userEmail fresh pay =
      (Except.error ⟨some 404, "Customer not found for payment"⟩, db) := by
  refine ⟨?_, rfl, by simp [createOrderIntoDB, h]⟩
  have hcc : ∀ o, evalWhere db.shops (customerWhereConds db userEmail params) o =
      evalWhere db.shops (buildFilterAnd (stripSearchTerm params)) o := by
    intro o
    unfold customerWhereConds
    rw [h]
    simp [evalWhere, evalGroup, evalAtomic]
  exact pageOf_congr db pd _ _ hcc

/-- A database with one order and no customer rows. -/
def dbNoCust : DB :=
  { customers := [], shops := [], vendors := [], orders := [sampleOrderPending] }

/-- Witness: C10 at the customerless database. -/
theorem getSingleCustomerAllOrder_missing_customer_witness :
    (getSingleCustomerAllOrder dbNoCust "x@y" pdDefault []).data =
      pageOf dbNoCust pdDefault (buildFilterAnd (stripSearchTerm [])) ∧
    (getSingleCustomerAllOrder dbNoCust "x@y" pdDefault []).meta =
      mkMeta pdDefault.page pdDefault.limit dbNoCust.orders.length ∧
    createOrderIntoDB dbNoCust sampleRequest "x@y" sampleFresh samplePay =
      (Except.error ⟨some 404, "Customer not found for payment"⟩, dbNoCust) :=
  getSingleCustomerAllOrder_missing_customer dbNoCust "x@y" pdDefault [] sampleRequest
    sampleFresh samplePay rfl
